import Mathlib

/-!
Shallow embedding of `src/server.js` (ComptaP backend: Discord OAuth2
authentication, role resolution and route guards).

Modelling conventions:
* JavaScript strings are Lean `String`s; arrays are `List`s.
* A value that may be `null`/`undefined` (or, for `determineUserRole`,
  not an array at all) is an `Option`; all those falsy/non-array cases
  collapse to `none`, which is exactly how the code treats them.
* External HTTP calls (axios) are oracles passed in explicitly; a call
  that rejects (non-2xx or network failure) is an `Except.error`
  carrying the HTTP status (or 0 for a transport failure), a call that
  resolves (2xx) is `Except.ok` carrying the parsed response body.
* The async/callback control flow of the OAuth callback handler is
  sequential in the source (each step awaits the previous one), so it
  is embedded as a pure function from the request and the oracle
  environment to an outcome record that also records which external
  calls were made and what was assigned to `req.session.user`.
-/

namespace ComptaP

/-- `config.roles` from server.js lines 22-26: the three comma-separated
role-id lists read from the environment. -/
structure RolesConfig where
  ADMIN : List String
  RH : List String
  EMPLOYEE : List String

/-- The object stored in `req.session.user` (server.js lines 186-195). -/
structure SessionUser where
  id : String
  username : String
  discriminator : String
  avatar : String
  role : String
  roles : List String
deriving DecidableEq, Repr

/-- The literal `roleHierarchy` object of `requireRole`
(server.js line 62): bracket lookup returns `some` for the four known
keys and `none` (undefined) otherwise. -/
def roleHierarchyMap (r : String) : Option Nat :=
  if r = "admin" then some 3
  else if r = "rh" then some 2
  else if r = "employee" then some 1
  else if r = "visitor" then some 0
  else none

/-- `roleHierarchy[r] || 0` (server.js lines 69-70): undefined lookup
falls back to 0, and the stored 0 for "visitor" also yields 0. -/
def roleLevel (r : String) : Nat :=
  (roleHierarchyMap r).getD 0

/-- Result of running a guard middleware on a request: either it sends
an error response with an HTTP status, or it calls `next()`. -/
inductive GuardResult where
  | reject (status : Nat)
  | pass
deriving DecidableEq, Repr

/-- `requireRole(minRole)` applied to a request whose session user is
`session` (server.js lines 61-78). -/
def requireRole (minRole : String) (session : Option SessionUser) : GuardResult :=
  match session with
  | none => .reject 401
  | some user =>
    if roleLevel user.role < roleLevel minRole then .reject 403
    else .pass

/-- `requireAuth` (server.js lines 54-59). -/
def requireAuth (session : Option SessionUser) : GuardResult :=
  match session with
  | none => .reject 401
  | some _ => .pass

/-- `determineUserRole(discordRoles)` (server.js lines 83-104).
`none` stands for a `null`/`undefined`/non-array argument, which the
first guard of the function sends to "visitor".  Each `some(...)` /
`includes(...)` pair is `List.any` over the configured list testing
membership in the user's role list. -/
def determineUserRole (cfg : RolesConfig) (discordRoles : Option (List String)) : String :=
  match discordRoles with
  | none => "visitor"
  | some roles =>
    if cfg.ADMIN.any (fun roleId => roles.contains roleId) then "admin"
    else if cfg.RH.any (fun roleId => roles.contains roleId) then "rh"
    else if cfg.EMPLOYEE.any (fun roleId => roles.contains roleId) then "employee"
    else "visitor"

/-- Two lists of role identifiers intersect: some identifier occurs in
both. -/
def intersects (a b : List String) : Prop :=
  ∃ r, r ∈ a ∧ r ∈ b

instance (a b : List String) : Decidable (intersects a b) := by
  unfold intersects
  exact List.decidableBEx _ a

/-- The four role levels of the system. -/
def roleLevels : List String := ["visitor", "employee", "rh", "admin"]

/-- Parsed body of a 2xx response from the token endpoint
(`tokenResponse.data`); `access_token` may be absent (line 164 reads it
without checking). -/
structure TokenData where
  access_token : Option String
deriving DecidableEq, Repr

/-- Parsed body of a 2xx response from `/users/@me`
(`userResponse.data`, lines 167-173). -/
structure UserData where
  id : String
  username : String
  discriminator : String
  avatar : Option String
deriving DecidableEq, Repr

/-- Parsed body of a 2xx response from the guild-member endpoint
(`response.data` in `getGuildMember`). -/
structure Member where
  roles : List String
deriving DecidableEq, Repr

/-- Oracle environment for one run of the OAuth callback: the outcome of
each external interaction, as the code would observe it.  An
`Except.error s` is an axios rejection (non-2xx with HTTP status `s`, or
`0` for a transport failure); an `Except.ok` is a resolved 2xx response
with its parsed body. -/
structure CallbackEnv where
  tokenExchange : Except Nat TokenData
  fetchProfile : Option String → Except Nat UserData
  guildApi : String → Except Nat Member
  sessionSaveError : Bool

/-- `getGuildMember(userId)` (server.js lines 107-122): the axios call
resolves to the member data, and any rejection — 404 included — is
caught and turned into `null`. -/
def getGuildMember (api : String → Except Nat Member) (userId : String) : Option Member :=
  match api userId with
  | .ok data => some data
  | .error _ => none

/-- Avatar URL construction (server.js lines 190-192), with the CDN
fallback keyed by `parseInt(user.discriminator) % 5`.  The numeric
parse is embedded as `String.toNat?` with fallback 0 (a NaN
discriminator never occurs for real Discord data; `% 5` of the parsed
value is what the URL interpolates). -/
def avatarUrl (user : UserData) : String :=
  match user.avatar with
  | some a => "https://cdn.discordapp.com/avatars/" ++ user.id ++ "/" ++ a ++ ".png"
  | none =>
    "https://cdn.discordapp.com/embed/avatars/" ++
      toString ((user.discriminator.toNat?.getD 0) % 5) ++ ".png"

/-- Everything one run of `GET /auth/discord/callback`
(server.js lines 139-212) produces: the query string of the redirect it
sends, which external calls it made, and what (if anything) it assigned
to `req.session.user`. -/
structure CallbackOutcome where
  redirect : String
  tokenCalled : Bool
  profileCalled : Bool
  guildCalled : Bool
  sessionAssigned : Option SessionUser
deriving DecidableEq, Repr

/-- `GET /auth/discord/callback` (server.js lines 139-212), embedded
step by step:
1. missing `code` → immediate `?error=no_code` redirect (lines 142-144);
2. token exchange (lines 148-162): a rejection is caught by the
   surrounding try/catch → `?error=auth_failed` (lines 208-211);
3. `accessToken := tokenResponse.data.access_token` (line 164) is read
   without validation and passed to the profile fetch (lines 167-171),
   whose rejection is likewise caught → `?error=auth_failed`;
4. guild lookup via `getGuildMember` (line 176); `null` →
   `?error=not_in_guild` (lines 178-180);
5. role computation and session assignment (lines 183-195);
6. `req.session.save` (lines 198-206): error → `?error=session_error`,
   otherwise `?auth=success`. -/
def discordCallback (cfg : RolesConfig) (code : Option String) (env : CallbackEnv) :
    CallbackOutcome :=
  match code with
  | none =>
    { redirect := "?error=no_code", tokenCalled := false, profileCalled := false,
      guildCalled := false, sessionAssigned := none }
  | some _ =>
    match env.tokenExchange with
    | .error _ =>
      { redirect := "?error=auth_failed", tokenCalled := true, profileCalled := false,
        guildCalled := false, sessionAssigned := none }
    | .ok tokenData =>
      match env.fetchProfile tokenData.access_token with
      | .error _ =>
        { redirect := "?error=auth_failed", tokenCalled := true, profileCalled := true,
          guildCalled := false, sessionAssigned := none }
      | .ok user =>
        match getGuildMember env.guildApi user.id with
        | none =>
          { redirect := "?error=not_in_guild", tokenCalled := true, profileCalled := true,
            guildCalled := true, sessionAssigned := none }
        | some member =>
          let userRole := determineUserRole cfg (some member.roles)
          let sessUser : SessionUser :=
            { id := user.id, username := user.username,
              discriminator := user.discriminator, avatar := avatarUrl user,
              role := userRole, roles := member.roles }
          if env.sessionSaveError then
            { redirect := "?error=session_error", tokenCalled := true, profileCalled := true,
              guildCalled := true, sessionAssigned := some sessUser }
          else
            { redirect := "?auth=success", tokenCalled := true, profileCalled := true,
              guildCalled := true, sessionAssigned := some sessUser }

/-- Response body of `GET /api/check-auth`. -/
structure CheckAuthResponse where
  authenticated : Bool
  user : Option SessionUser
deriving DecidableEq, Repr

/-- `GET /api/check-auth` (server.js lines 233-242). -/
def checkAuth (session : Option SessionUser) : CheckAuthResponse :=
  match session with
  | some u => { authenticated := true, user := some u }
  | none => { authenticated := false, user := none }

/-- Response of `POST /api/logout`: a 500 error body or the success
body. -/
inductive LogoutResponse where
  | error500
  | success
deriving DecidableEq, Repr

/-- `POST /api/logout` (server.js lines 223-230): `req.session.destroy`
reports to its callback; on error the session survives and a 500 is
returned, otherwise the session is gone and success is returned.
The returned pair is (session after the request, response). -/
def logout (session : Option SessionUser) (destroyError : Bool) :
    Option SessionUser × LogoutResponse :=
  if destroyError then (session, .error500)
  else (none, .success)

/-! ### Concrete instances used by the witnesses -/

/-- A concrete role configuration: admin id "a", rh id "r", employee
id "e". -/
def cfg0 : RolesConfig := ⟨["a"], ["r"], ["e"]⟩

/-- A concrete profile body (no custom avatar, so the CDN fallback URL
applies). -/
def user0 : UserData := ⟨"123", "name", "0001", none⟩

/-- A fully successful oracle environment: token exchange yields a
token, the profile fetch yields `user0`, the guild lookup yields a
member holding the admin role id, and the session save succeeds. -/
def env0 : CallbackEnv :=
  { tokenExchange := .ok ⟨some "tok"⟩,
    fetchProfile := fun _ => .ok user0,
    guildApi := fun _ => .ok ⟨["a"]⟩,
    sessionSaveError := false }

/-- The session user a run of the callback under `env0` stores. -/
def u0 : SessionUser :=
  { id := "123", username := "name", discriminator := "0001",
    avatar := avatarUrl user0, role := "admin", roles := ["a"] }

/-- Like `env0` but the guild-member endpoint rejects with 404. -/
def envGuild404 : CallbackEnv := { env0 with guildApi := fun _ => .error 404 }

/-- Like `env0` but the session save reports an error. -/
def envSaveErr : CallbackEnv := { env0 with sessionSaveError := true }

/-- Like `env0` but the token endpoint rejects with 400. -/
def envTokenErr : CallbackEnv := { env0 with tokenExchange := .error 400 }

/-- Token endpoint answers 2xx without an `access_token`, while the
profile endpoint still accepts the absent bearer token. -/
def envMissingToken : CallbackEnv := { env0 with tokenExchange := .ok ⟨none⟩ }

/-- Token endpoint answers 2xx without an `access_token`, and the
profile endpoint rejects the absent bearer token with 401. -/
def envMissingTokenStrict : CallbackEnv :=
  { env0 with
    tokenExchange := .ok ⟨none⟩,
    fetchProfile := fun t => match t with | some _ => .ok user0 | none => .error 401 }

/-! ### Helper lemmas shared across the development -/

/-- The Boolean `some`/`includes` test of the source is exactly list
intersection. -/
theorem any_contains_iff (a b : List String) :
    (a.any (fun roleId => b.contains roleId) = true) ↔ intersects a b := by
  simp only [List.any_eq_true, intersects, List.contains, List.elem_iff]

/-- The classifier only ever produces one of the four levels. -/
theorem determineUserRole_mem (cfg : RolesConfig) (x : Option (List String)) :
    determineUserRole cfg x ∈ roleLevels := by
  cases x with
  | none => simp [determineUserRole, roleLevels]
  | some roles =>
    simp only [determineUserRole, roleLevels]
    split
    · simp
    · split
      · simp
      · split <;> simp

/-- A string that is none of the four role names has level 0. -/
theorem roleLevel_unknown (r : String) (h : r ∉ roleLevels) : roleLevel r = 0 := by
  simp only [roleLevels, List.mem_cons, List.not_mem_nil, or_false, not_or] at h
  obtain ⟨h0, h1, h2, h3⟩ := h
  simp [roleLevel, roleHierarchyMap, h0, h1, h2, h3]

/-! ### Claim theorems -/

/-- C1: `determineUserRole` always returns one of the four levels; if
the user's role set intersects the configured ADMIN list the result is
"admin" regardless of the other intersections; otherwise RH wins over
EMPLOYEE, and with no intersection at all the result is "visitor". -/
theorem determineUserRole_precedence (cfg : RolesConfig) (roles : List String) :
    determineUserRole cfg (some roles) ∈ roleLevels ∧
    (intersects cfg.ADMIN roles → determineUserRole cfg (some roles) = "admin") ∧
    (¬ intersects cfg.ADMIN roles → intersects cfg.RH roles →
      determineUserRole cfg (some roles) = "rh") ∧
    (¬ intersects cfg.ADMIN roles → ¬ intersects cfg.RH roles →
      intersects cfg.EMPLOYEE roles → determineUserRole cfg (some roles) = "employee") ∧
    (¬ intersects cfg.ADMIN roles → ¬ intersects cfg.RH roles →
      ¬ intersects cfg.EMPLOYEE roles → determineUserRole cfg (some roles) = "visitor") := by
  refine ⟨determineUserRole_mem cfg (some roles), ?_, ?_, ?_, ?_⟩
  · intro h
    have hA := (any_contains_iff cfg.ADMIN roles).mpr h
    simp only [determineUserRole, hA]
    rfl
  · intro hnA h
    have hA : cfg.ADMIN.any (fun roleId => roles.contains roleId) = false := by
      rw [← Bool.not_eq_true, any_contains_iff]; exact hnA
    have hR := (any_contains_iff cfg.RH roles).mpr h
    simp only [determineUserRole, hA, hR]
    rfl
  · intro hnA hnR h
    have hA : cfg.ADMIN.any (fun roleId => roles.contains roleId) = false := by
      rw [← Bool.not_eq_true, any_contains_iff]; exact hnA
    have hR : cfg.RH.any (fun roleId => roles.contains roleId) = false := by
      rw [← Bool.not_eq_true, any_contains_iff]; exact hnR
    have hE := (any_contains_iff cfg.EMPLOYEE roles).mpr h
    simp only [determineUserRole, hA, hR, hE]
    rfl
  · intro hnA hnR hnE
    have hA : cfg.ADMIN.any (fun roleId => roles.contains roleId) = false := by
      rw [← Bool.not_eq_true, any_contains_iff]; exact hnA
    have hR : cfg.RH.any (fun roleId => roles.contains roleId) = false := by
      rw [← Bool.not_eq_true, any_contains_iff]; exact hnR
    have hE : cfg.EMPLOYEE.any (fun roleId => roles.contains roleId) = false := by
      rw [← Bool.not_eq_true, any_contains_iff]; exact hnE
    simp only [determineUserRole, hA, hR, hE]
    rfl

/-- Witness for C1 at a concrete configuration and concrete role sets,
one per precedence branch. -/
theorem determineUserRole_precedence_witness :
    determineUserRole ⟨["a"], ["r"], ["e"]⟩ (some ["a", "r", "e"]) = "admin" ∧
    determineUserRole ⟨["a"], ["r"], ["e"]⟩ (some ["r", "e"]) = "rh" ∧
    determineUserRole ⟨["a"], ["r"], ["e"]⟩ (some ["e"]) = "employee" ∧
    determineUserRole ⟨["a"], ["r"], ["e"]⟩ (some ["x"]) = "visitor" :=
  ⟨(determineUserRole_precedence ⟨["a"], ["r"], ["e"]⟩ ["a", "r", "e"]).2.1 (by decide),
   (determineUserRole_precedence ⟨["a"], ["r"], ["e"]⟩ ["r", "e"]).2.2.1
     (by decide) (by decide),
   (determineUserRole_precedence ⟨["a"], ["r"], ["e"]⟩ ["e"]).2.2.2.1
     (by decide) (by decide) (by decide),
   (determineUserRole_precedence ⟨["a"], ["r"], ["e"]⟩ ["x"]).2.2.2.2
     (by decide) (by decide) (by decide)⟩

/-- C2: `requireRole(minimum)` rejects with 401 when no session user
exists; rejects with 403 when the user's level is below the required
level under visitor=0 < employee=1 < rh=2 < admin=3; passes otherwise;
and an unknown role string maps to level 0. -/
theorem requireRole_guard (minRole : String) (session : Option SessionUser) :
    (session = none → requireRole minRole session = .reject 401) ∧
    (∀ u, session = some u → roleLevel u.role < roleLevel minRole →
      requireRole minRole session = .reject 403) ∧
    (∀ u, session = some u → roleLevel minRole ≤ roleLevel u.role →
      requireRole minRole session = .pass) ∧
    (∀ r, r ∉ roleLevels → roleLevel r = 0) ∧
    roleLevel "visitor" = 0 ∧ roleLevel "employee" = 1 ∧
    roleLevel "rh" = 2 ∧ roleLevel "admin" = 3 := by
  refine ⟨?_, ?_, ?_, roleLevel_unknown, by decide, by decide, by decide, by decide⟩
  · intro h; subst h; rfl
  · intro u h hlt; subst h; simp [requireRole, hlt]
  · intro u h hle; subst h; simp [requireRole, Nat.not_lt.mpr hle]

/-- Witness for C2: an "employee" session is rejected with 403 by an
"admin" guard, passes an "employee" guard, no session gives 401, and a
malformed role string has level 0. -/
theorem requireRole_guard_witness :
    requireRole "admin" none = .reject 401 ∧
    requireRole "admin" (some ⟨"1", "u", "0001", "av", "employee", []⟩) = .reject 403 ∧
    requireRole "employee" (some ⟨"1", "u", "0001", "av", "employee", []⟩) = .pass ∧
    roleLevel "superuser" = 0 :=
  ⟨(requireRole_guard "admin" none).1 rfl,
   (requireRole_guard "admin" (some ⟨"1", "u", "0001", "av", "employee", []⟩)).2.1
     ⟨"1", "u", "0001", "av", "employee", []⟩ rfl (by decide),
   (requireRole_guard "employee" (some ⟨"1", "u", "0001", "av", "employee", []⟩)).2.2.1
     ⟨"1", "u", "0001", "av", "employee", []⟩ rfl (by decide),
   (requireRole_guard "x" none).2.2.2.1 "superuser" (by decide)⟩

/-- C9: the classifier returns "visitor" on an absent
(null/undefined/non-array) argument and on an empty role list, and it
is total and deterministic: it always returns a value, and equal
inputs under equal configurations yield equal outputs. -/
theorem determineUserRole_total (cfg : RolesConfig) (x : Option (List String)) :
    determineUserRole cfg none = "visitor" ∧
    determineUserRole cfg (some []) = "visitor" ∧
    (∃ out, determineUserRole cfg x = out) ∧
    (∀ cfg2 y, cfg = cfg2 → x = y →
      determineUserRole cfg x = determineUserRole cfg2 y) := by
  refine ⟨rfl, ?_, ⟨determineUserRole cfg x, rfl⟩, ?_⟩
  · simp [determineUserRole, List.contains]
  · intro cfg2 y h1 h2; rw [h1, h2]

/-- Witness for C9 at a concrete configuration and input. -/
theorem determineUserRole_total_witness :
    determineUserRole ⟨["a"], ["r"], ["e"]⟩ none = "visitor" ∧
    determineUserRole ⟨["a"], ["r"], ["e"]⟩ (some []) = "visitor" ∧
    determineUserRole ⟨["a"], ["r"], ["e"]⟩ (some ["e"]) =
      determineUserRole ⟨["a"], ["r"], ["e"]⟩ (some ["e"]) :=
  ⟨(determineUserRole_total ⟨["a"], ["r"], ["e"]⟩ (some ["e"])).1,
   (determineUserRole_total ⟨["a"], ["r"], ["e"]⟩ (some ["e"])).2.1,
   (determineUserRole_total ⟨["a"], ["r"], ["e"]⟩ (some ["e"])).2.2.2
     ⟨["a"], ["r"], ["e"]⟩ (some ["e"]) rfl rfl⟩

/-- C10: a guard built with an unrecognized minimum role string has
required level 0, so it admits every authenticated session; only the
no-session 401 check still applies. -/
theorem requireRole_unknown_min (minRole : String) (h : minRole ∉ roleLevels) :
    (∀ u : SessionUser, requireRole minRole (some u) = .pass) ∧
    requireRole minRole none = .reject 401 := by
  refine ⟨?_, rfl⟩
  intro u
  simp [requireRole, roleLevel_unknown minRole h]

/-- Witness for C10: a guard with minimum "banana" admits a mere
visitor session. -/
theorem requireRole_unknown_min_witness :
    requireRole "banana" (some ⟨"1", "u", "0001", "av", "visitor", []⟩) = .pass ∧
    requireRole "banana" none = .reject 401 :=
  ⟨(requireRole_unknown_min "banana" (by decide)).1 ⟨"1", "u", "0001", "av", "visitor", []⟩,
   (requireRole_unknown_min "banana" (by decide)).2⟩

/-- C3: every session identity the OAuth callback assigns has its role
field equal to one of the four levels, computed by the classifier from
the stored guild member roles at login; the other session operations
never recompute or modify it: check-auth returns the stored identity
unchanged and logout only ever removes the whole identity. -/
theorem callback_session_role_invariant (cfg : RolesConfig) (code : Option String)
    (env : CallbackEnv) (s : Option SessionUser) (derr : Bool) :
    (∀ u, (discordCallback cfg code env).sessionAssigned = some u →
      u.role ∈ roleLevels ∧
      ∃ member, getGuildMember env.guildApi u.id = some member ∧
        u.role = determineUserRole cfg (some member.roles) ∧ u.roles = member.roles) ∧
    (checkAuth s).user = s ∧
    ((logout s derr).1 = s ∨ (logout s derr).1 = none) := by
  refine ⟨?_, ?_, ?_⟩
  · intro u hu
    cases code with
    | none => simp [discordCallback] at hu
    | some c =>
      cases htok : env.tokenExchange with
      | error st => simp [discordCallback, htok] at hu
      | ok td =>
        cases hprof : env.fetchProfile td.access_token with
        | error st => simp [discordCallback, htok, hprof] at hu
        | ok user =>
          cases hg : getGuildMember env.guildApi user.id with
          | none => simp [discordCallback, htok, hprof, hg] at hu
          | some member =>
            cases hsave : env.sessionSaveError <;>
              simp only [discordCallback, htok, hprof, hg, hsave, Bool.false_eq_true,
                if_false, if_true, Option.some.injEq] at hu <;>
              subst hu <;>
              exact ⟨determineUserRole_mem cfg (some member.roles), member, hg, rfl, rfl⟩
  · cases s <;> rfl
  · cases derr <;> simp [logout]

/-- Witness for C3: under the fully successful environment `env0` the
stored identity is `u0`, whose role "admin" is one of the four levels
and is the classifier output on the member roles; check-auth echoes it
and successful logout removes it. -/
theorem callback_session_role_invariant_witness :
    u0.role ∈ roleLevels ∧
    (∃ member, getGuildMember env0.guildApi u0.id = some member ∧
      u0.role = determineUserRole cfg0 (some member.roles) ∧ u0.roles = member.roles) ∧
    (checkAuth (some u0)).user = some u0 ∧
    ((logout (some u0) false).1 = some u0 ∨ (logout (some u0) false).1 = none) :=
  have h := callback_session_role_invariant cfg0 (some "abc") env0 (some u0) false
  have h1 := h.1 u0 rfl
  ⟨h1.1, h1.2, h.2.1, h.2.2⟩

/-- C4: `getGuildMember` maps any rejected guild-member call — a 404
response included — to `null` and a resolved call to the member data
(in particular it never throws to its caller); and whenever it yields
`null` inside the callback, the callback redirects with
`?error=not_in_guild` and assigns no session. -/
theorem getGuildMember_null_on_failure (api : String → Except Nat Member)
    (userId : String) (cfg : RolesConfig) (c : String) (env : CallbackEnv) :
    (∀ status, api userId = .error status → getGuildMember api userId = none) ∧
    (∀ m, api userId = .ok m → getGuildMember api userId = some m) ∧
    (∀ td user, env.tokenExchange = .ok td →
      env.fetchProfile td.access_token = .ok user →
      getGuildMember env.guildApi user.id = none →
      discordCallback cfg (some c) env =
        { redirect := "?error=not_in_guild", tokenCalled := true,
          profileCalled := true, guildCalled := true, sessionAssigned := none }) := by
  refine ⟨?_, ?_, ?_⟩
  · intro status h; simp [getGuildMember, h]
  · intro m h; simp [getGuildMember, h]
  · intro td user htok hprof hg
    simp [discordCallback, htok, hprof, hg]

/-- Witness for C4: a guild API answering 404 makes `getGuildMember`
return `null`, and under `envGuild404` the callback redirects with
`?error=not_in_guild` and stores nothing. -/
theorem getGuildMember_null_on_failure_witness :
    getGuildMember (fun _ => Except.error 404) "123" = none ∧
    discordCallback cfg0 (some "abc") envGuild404 =
      { redirect := "?error=not_in_guild", tokenCalled := true,
        profileCalled := true, guildCalled := true, sessionAssigned := none } :=
  ⟨(getGuildMember_null_on_failure (fun _ => Except.error 404) "123" cfg0 "abc"
      envGuild404).1 404 rfl,
   (getGuildMember_null_on_failure (fun _ => Except.error 404) "123" cfg0 "abc"
      envGuild404).2.2 ⟨some "tok"⟩ user0 rfl rfl rfl⟩

/-- C5: if the session save reports an error on a run that reached the
save step (a session was assigned), the callback redirects with
`?error=session_error`; the `?auth=success` redirect happens only on a
run whose save succeeded (and that did assign a session). -/
theorem session_save_failure (cfg : RolesConfig) (code : Option String)
    (env : CallbackEnv) :
    (env.sessionSaveError = true →
      (discordCallback cfg code env).sessionAssigned ≠ none →
      (discordCallback cfg code env).redirect = "?error=session_error") ∧
    ((discordCallback cfg code env).redirect = "?auth=success" →
      env.sessionSaveError = false ∧
      (discordCallback cfg code env).sessionAssigned ≠ none) := by
  cases code with
  | none =>
    constructor
    · intro _ hs; exact absurd rfl hs
    · intro h; simp [discordCallback] at h
  | some c =>
    cases htok : env.tokenExchange with
    | error st =>
      constructor
      · intro _ hs; exact absurd (by simp [discordCallback, htok]) hs
      · intro h; simp [discordCallback, htok] at h
    | ok td =>
      cases hprof : env.fetchProfile td.access_token with
      | error st =>
        constructor
        · intro _ hs; exact absurd (by simp [discordCallback, htok, hprof]) hs
        · intro h; simp [discordCallback, htok, hprof] at h
      | ok user =>
        cases hg : getGuildMember env.guildApi user.id with
        | none =>
          constructor
          · intro _ hs; exact absurd (by simp [discordCallback, htok, hprof, hg]) hs
          · intro h; simp [discordCallback, htok, hprof, hg] at h
        | some member =>
          cases hsave : env.sessionSaveError with
          | false =>
            constructor
            · intro hcontra
              exact absurd hcontra (by simp)
            · intro _
              refine ⟨rfl, ?_⟩
              simp [discordCallback, htok, hprof, hg, hsave]
          | true =>
            constructor
            · intro _ _; simp [discordCallback, htok, hprof, hg, hsave]
            · intro h; simp [discordCallback, htok, hprof, hg, hsave] at h

/-- Witness for C5: under `envSaveErr` (save fails after a fully
successful flow) the callback redirects with `?error=session_error`. -/
theorem session_save_failure_witness :
    (discordCallback cfg0 (some "abc") envSaveErr).redirect = "?error=session_error" :=
  (session_save_failure cfg0 (some "abc") envSaveErr).1 rfl
    (by
      intro h
      rw [show (discordCallback cfg0 (some "abc") envSaveErr).sessionAssigned
            = some u0 from rfl] at h
      exact Option.noConfusion h)

/-- C6: with no `code` query parameter the callback immediately
redirects with `?error=no_code`, makes none of the three network calls
(token exchange, profile fetch, guild lookup), and assigns nothing to
the session. -/
theorem callback_no_code (cfg : RolesConfig) (env : CallbackEnv) :
    discordCallback cfg none env =
      { redirect := "?error=no_code", tokenCalled := false, profileCalled := false,
        guildCalled := false, sessionAssigned := none } := rfl

/-- C7 counterexample: a 2xx token response whose body lacks the access
token does not make the token-exchange step fail.  Under an environment
whose profile endpoint accepts the absent bearer token, the callback
proceeds all the way to a stored session and the `?auth=success`
redirect, contradicting the claim that a missing token produces the
login-failed outcome. -/
theorem missing_token_can_reach_success :
    envMissingToken.tokenExchange = Except.ok ⟨none⟩ ∧
    (discordCallback cfg0 (some "abc") envMissingToken).redirect = "?auth=success" ∧
    (discordCallback cfg0 (some "abc") envMissingToken).sessionAssigned = some u0 :=
  ⟨rfl, rfl, rfl⟩

/-- C7 amended: the callback produces the login-failed redirect
(`?error=auth_failed`) whenever the token endpoint call rejects
(non-2xx); a 2xx token response lacking the access token is not
detected at the exchange step — the callback proceeds to the profile
fetch with an absent bearer token, and produces the login-failed
redirect whenever that fetch then rejects. -/
theorem token_exchange_failure (cfg : RolesConfig) (c : String) (env : CallbackEnv) :
    (∀ status, env.tokenExchange = .error status →
      (discordCallback cfg (some c) env).redirect = "?error=auth_failed") ∧
    (∀ td, env.tokenExchange = .ok td → td.access_token = none →
      (discordCallback cfg (some c) env).profileCalled = true ∧
      (∀ status, env.fetchProfile none = .error status →
        (discordCallback cfg (some c) env).redirect = "?error=auth_failed")) := by
  constructor
  · intro status h
    simp [discordCallback, h]
  · intro td htok hnone
    constructor
    · cases hprof : env.fetchProfile td.access_token with
      | error st => simp [discordCallback, htok, hprof]
      | ok user =>
        cases hg : getGuildMember env.guildApi user.id with
        | none => simp [discordCallback, htok, hprof, hg]
        | some member =>
          cases hsave : env.sessionSaveError <;>
            simp [discordCallback, htok, hprof, hg, hsave]
    · intro status hprof
      simp [discordCallback, htok, hnone, hprof]

/-- Witness for C7 amended: a 400 from the token endpoint yields
`?error=auth_failed`, and a missing token whose downstream profile
fetch answers 401 also yields `?error=auth_failed`. -/
theorem token_exchange_failure_witness :
    (discordCallback cfg0 (some "abc") envTokenErr).redirect = "?error=auth_failed" ∧
    (discordCallback cfg0 (some "abc") envMissingTokenStrict).redirect =
      "?error=auth_failed" :=
  ⟨(token_exchange_failure cfg0 "abc" envTokenErr).1 400 rfl,
   ((token_exchange_failure cfg0 "abc" envMissingTokenStrict).2
      ⟨none⟩ rfl rfl).2 401 rfl⟩

/-- C8: after a successful logout of a session holding an identity, a
subsequent check-auth reports unauthenticated; check-auth answers
authenticated exactly when a session user exists, returns that user
unchanged, and is a total function of the session (it never errors). -/
theorem logout_then_checkAuth (u : SessionUser) (s : Option SessionUser) :
    (logout (some u) false).2 = .success ∧
    checkAuth (logout (some u) false).1 = { authenticated := false, user := none } ∧
    ((checkAuth s).authenticated = true ↔ ∃ v, s = some v) ∧
    (checkAuth s).user = s := by
  refine ⟨rfl, rfl, ?_, ?_⟩ <;> cases s <;> simp [checkAuth]

/-- Witness for C8 at the concrete identity `u0`. -/
theorem logout_then_checkAuth_witness :
    (logout (some u0) false).2 = .success ∧
    checkAuth (logout (some u0) false).1 = { authenticated := false, user := none } ∧
    ((checkAuth (some u0)).authenticated = true ↔ ∃ v, some u0 = some v) ∧
    (checkAuth (some u0)).user = some u0 :=
  logout_then_checkAuth u0 (some u0)

end ComptaP
